import Mathlib

/-!
Shallow embedding of gettext-tools/machine-translation/prototype/ollama-spit.py.

The program reads standard input, sends it as a prompt to an ollama server via
an HTTP POST to url + "api/generate" with stream=True, and consumes the
newline-delimited JSON response, printing the value of the response field of
each line.

The embedding models, from the source and the libraries it calls:
* the JSON decoding done by json.loads (module json of CPython, strict mode),
  on which the stream loop relies;
* the JSON serialization json.dumps applied to the payload dictionary, with
  the default separators and ensure_ascii behaviour;
* argparse.ArgumentParser.parse_known_args for the parser declared in main
  (options --url, --model with nargs 1, --help with aliases --hel, --he, --h,
  and a catch-all positional with nargs star), including exact matches,
  unambiguous double-dash prefix abbreviation, the form with an equals sign,
  the double-dash separator, and the classification of a bare dash, of
  negative-number lookalikes and of tokens containing a space as positionals;
* the main control flow: help, unrecognized options, missing model, excess
  arguments, the single streamed POST, status-code handling and the stream
  consumption loop.

Process effects are represented by the Outcome structure: an optional exit
code, where none models abnormal termination by an uncaught exception (CPython
prints a traceback and exits nonzero), the ordered list of stdout
write-and-flush events, the stderr text, and the list of HTTP requests issued.
-/

/-! JSON values, as produced by json.loads. Numbers are kept as their lexeme:
the numeric decoding to int or float plays no role in the program, which only
reads the response field, a string. -/

inductive JsonValue where
  | null
  | bool (b : Bool)
  | num (lexeme : String)
  | str (s : String)
  | arr (items : List JsonValue)
  | obj (members : List (String × JsonValue))

/-- JSON whitespace recognized by the json module: space, tab, newline, return. -/
def jsonWs (c : Char) : Bool :=
  c = ' ' || c = '\t' || c = '\n' || c = '\r'

def skipWs : List Char → List Char
  | [] => []
  | c :: cs => if jsonWs c then skipWs cs else c :: cs

def hexDigitVal (c : Char) : Option Nat :=
  if '0' ≤ c ∧ c ≤ '9' then some (c.toNat - '0'.toNat)
  else if 'a' ≤ c ∧ c ≤ 'f' then some (c.toNat - 'a'.toNat + 10)
  else if 'A' ≤ c ∧ c ≤ 'F' then some (c.toNat - 'A'.toNat + 10)
  else none

def parseHex4 (cs : List Char) : Option (Nat × List Char) :=
  match cs with
  | a :: b :: c :: d :: rest =>
    match hexDigitVal a, hexDigitVal b, hexDigitVal c, hexDigitVal d with
    | some x, some y, some z, some w => some (((x * 16 + y) * 16 + z) * 16 + w, rest)
    | _, _, _, _ => none
  | _ => none

/-- String scanning after the opening quote, as in py_scanstring with
strict=True: unescaped control characters are an error, the eight simple
escapes and the uXXXX escape are recognized, and a high surrogate escape
followed by a low surrogate escape is combined into one code point. A lone
surrogate survives in a CPython str but has no Lean Char; Char.ofNat maps it
to the NUL character. No claim depends on lone surrogates. Fuel decreases on
every step; the callers pass the input length plus one, which suffices since
every step consumes at least one character. -/
def py_scanstring : Nat → List Char → Option (List Char × List Char)
  | 0, _ => none
  | _ + 1, [] => none
  | fuel + 1, c :: rest =>
    if c = '"' then some ([], rest)
    else if c = '\\' then
      match rest with
      | [] => none
      | e :: rest2 =>
        if e = 'u' then
          match parseHex4 rest2 with
          | none => none
          | some (n, rest3) =>
            if 0xD800 ≤ n ∧ n ≤ 0xDBFF then
              match rest3 with
              | '\\' :: 'u' :: rest4 =>
                match parseHex4 rest4 with
                | none => none
                | some (m, rest5) =>
                  if 0xDC00 ≤ m ∧ m ≤ 0xDFFF then
                    (py_scanstring fuel rest5).map (fun p =>
                      (Char.ofNat (0x10000 + (n - 0xD800) * 0x400 + (m - 0xDC00)) :: p.1, p.2))
                  else
                    (py_scanstring fuel rest3).map (fun p => (Char.ofNat n :: p.1, p.2))
              | _ => (py_scanstring fuel rest3).map (fun p => (Char.ofNat n :: p.1, p.2))
            else
              (py_scanstring fuel rest3).map (fun p => (Char.ofNat n :: p.1, p.2))
        else if e = '"' then (py_scanstring fuel rest2).map (fun p => ('"' :: p.1, p.2))
        else if e = '\\' then (py_scanstring fuel rest2).map (fun p => ('\\' :: p.1, p.2))
        else if e = '/' then (py_scanstring fuel rest2).map (fun p => ('/' :: p.1, p.2))
        else if e = 'b' then (py_scanstring fuel rest2).map (fun p => ('\x08' :: p.1, p.2))
        else if e = 'f' then (py_scanstring fuel rest2).map (fun p => ('\x0C' :: p.1, p.2))
        else if e = 'n' then (py_scanstring fuel rest2).map (fun p => ('\n' :: p.1, p.2))
        else if e = 'r' then (py_scanstring fuel rest2).map (fun p => ('\x0D' :: p.1, p.2))
        else if e = 't' then (py_scanstring fuel rest2).map (fun p => ('\t' :: p.1, p.2))
        else none
    else if c.toNat < 0x20 then none
    else (py_scanstring fuel rest).map (fun p => (c :: p.1, p.2))

def spanDigits (cs : List Char) : List Char × List Char :=
  cs.span Char.isDigit

/-- Integer part of the JSON number grammar: 0, or a nonzero digit followed
by digits. -/
def parseIntPart (cs : List Char) : Option (List Char × List Char) :=
  match cs with
  | '0' :: rest => some (['0'], rest)
  | c :: rest =>
    if c.isDigit then
      match spanDigits rest with
      | (ds, r) => some (c :: ds, r)
    else none
  | [] => none

def parseFracPart (cs : List Char) : Option (List Char × List Char) :=
  match cs with
  | '.' :: rest =>
    (match spanDigits rest with
     | (d :: ds, r) => some ('.' :: d :: ds, r)
     | _ => none)
  | _ => none

def parseExpPart (cs : List Char) : Option (List Char × List Char) :=
  match cs with
  | e :: rest =>
    if e = 'e' || e = 'E' then
      match rest with
      | s :: rest2 =>
        if s = '+' || s = '-' then
          match spanDigits rest2 with
          | (d :: ds, r) => some (e :: s :: d :: ds, r)
          | _ => none
        else
          (match spanDigits rest with
           | (d :: ds, r) => some (e :: d :: ds, r)
           | _ => none)
      | [] => none
    else none
  | [] => none

/-- The NUMBER_RE regular expression of the json scanner, as a maximal-munch
parser returning the matched lexeme. -/
def parseNumber (cs : List Char) : Option (String × List Char) :=
  let p := match cs with
           | '-' :: rest => (['-'], rest)
           | _ => (([] : List Char), cs)
  match parseIntPart p.2 with
  | none => none
  | some (ip, cs2) =>
    let f := match parseFracPart cs2 with
             | some (fp, r) => (fp, r)
             | none => (([] : List Char), cs2)
    let e := match parseExpPart f.2 with
             | some (ep, r) => (ep, r)
             | none => (([] : List Char), f.2)
    some (String.mk (p.1 ++ ip ++ f.1 ++ e.1), e.2)

/-- Mode of the single-function JSON scanner: a value, the items of an array
after the opening bracket and leading whitespace, or the members of an object
after the opening brace and leading whitespace, with the accumulated elements. -/
inductive ScanMode where
  | value
  | arrItems (acc : List JsonValue)
  | objItems (acc : List (String × JsonValue))

/-- The scan_once function of the json scanner. Fuel decreases on every
mutual step; out of two consecutive steps at least one consumes input, so the
fuel passed by json_loads suffices for every complete parse. -/
def scan_once : Nat → ScanMode → List Char → Option (JsonValue × List Char)
  | 0, _, _ => none
  | fuel + 1, ScanMode.value, cs =>
    (match cs with
     | '"' :: rest =>
       (py_scanstring (rest.length + 1) rest).map (fun p => (JsonValue.str (String.mk p.1), p.2))
     | '{' :: rest =>
       (match skipWs rest with
        | '}' :: r2 => some (JsonValue.obj [], r2)
        | cs2 => scan_once fuel (ScanMode.objItems []) cs2)
     | '[' :: rest =>
       (match skipWs rest with
        | ']' :: r2 => some (JsonValue.arr [], r2)
        | cs2 => scan_once fuel (ScanMode.arrItems []) cs2)
     | 'n' :: 'u' :: 'l' :: 'l' :: rest => some (JsonValue.null, rest)
     | 't' :: 'r' :: 'u' :: 'e' :: rest => some (JsonValue.bool true, rest)
     | 'f' :: 'a' :: 'l' :: 's' :: 'e' :: rest => some (JsonValue.bool false, rest)
     | 'N' :: 'a' :: 'N' :: rest => some (JsonValue.num "NaN", rest)
     | 'I' :: 'n' :: 'f' :: 'i' :: 'n' :: 'i' :: 't' :: 'y' :: rest =>
       some (JsonValue.num "Infinity", rest)
     | '-' :: 'I' :: 'n' :: 'f' :: 'i' :: 'n' :: 'i' :: 't' :: 'y' :: rest =>
       some (JsonValue.num "-Infinity", rest)
     | _ => (parseNumber cs).map (fun p => (JsonValue.num p.1, p.2)))
  | fuel + 1, ScanMode.arrItems acc, cs =>
    (match scan_once fuel ScanMode.value cs with
     | none => none
     | some (v, r) =>
       match skipWs r with
       | ',' :: r2 => scan_once fuel (ScanMode.arrItems (acc ++ [v])) (skipWs r2)
       | ']' :: r2 => some (JsonValue.arr (acc ++ [v]), r2)
       | _ => none)
  | fuel + 1, ScanMode.objItems acc, cs =>
    (match cs with
     | '"' :: rest =>
       (match py_scanstring (rest.length + 1) rest with
        | none => none
        | some (key, r2) =>
          match skipWs r2 with
          | ':' :: r3 =>
            (match scan_once fuel ScanMode.value (skipWs r3) with
             | none => none
             | some (v, r4) =>
               match skipWs r4 with
               | ',' :: r5 => scan_once fuel (ScanMode.objItems (acc ++ [(String.mk key, v)])) (skipWs r5)
               | '}' :: r5 => some (JsonValue.obj (acc ++ [(String.mk key, v)]), r5)
               | _ => none)
          | _ => none)
     | _ => none)

/-- json.loads: skip whitespace, scan one value, skip whitespace, and demand
that the whole input was consumed. Returns none where CPython raises, which
the program does not catch. -/
def json_loads (s : String) : Option JsonValue :=
  match scan_once (2 * s.length + 8) ScanMode.value (skipWs s.data) with
  | some (v, rest) => if (skipWs rest).isEmpty then some v else none
  | none => none

/-- Lookup in the dict that json.loads builds from the member list of an
object: on duplicate keys the later binding overwrites the earlier one, hence
the search from the right. -/
def pyDictGet (members : List (String × JsonValue)) (key : String) : Option JsonValue :=
  (members.reverse.find? (fun m => m.1 = key)).map (fun m => m.2)

/-- The text that print writes for one argument. The program prints
part.get with a default of the empty string, so the argument is the response
value when present and the empty string otherwise. For the string values the
claims concern, str returns the string itself. The rendering of numbers and
containers by str involves CPython float formatting and repr and is only
approximated here; no claim depends on those cases. -/
def pyPrintArg : JsonValue → String
  | JsonValue.str s => s
  | JsonValue.null => "None"
  | JsonValue.bool true => "True"
  | JsonValue.bool false => "False"
  | JsonValue.num lexeme => lexeme
  | JsonValue.arr _ => "<list>"
  | JsonValue.obj _ => "<dict>"

/-- The fragment printed for one decoded object line:
print of part.get applied to the key response with default empty string. -/
def printedFragment (members : List (String × JsonValue)) : String :=
  pyPrintArg ((pyDictGet members "response").getD (JsonValue.str ""))

/-! Serialization: json.dumps with its defaults, ensure_ascii=True and
separators comma-space and colon-space, applied to a dict of two string
entries in insertion order model, prompt. -/

def toHexDigit (n : Nat) : Char :=
  if n < 10 then Char.ofNat ('0'.toNat + n) else Char.ofNat ('a'.toNat + (n - 10))

def toHex4 (n : Nat) : String :=
  String.mk [toHexDigit (n / 4096 % 16), toHexDigit (n / 256 % 16),
             toHexDigit (n / 16 % 16), toHexDigit (n % 16)]

/-- Escaping of one character by json.dumps with ensure_ascii: the quote and
the backslash get a backslash, the named control escapes are used for
backspace, tab, newline, form feed and return, every other character outside
the printable ASCII range 0x20 to 0x7E becomes a uXXXX escape, with a
surrogate pair for code points beyond 0xFFFF. -/
def pyJsonEscapeChar (c : Char) : String :=
  if c = '"' then "\\\""
  else if c = '\\' then "\\\\"
  else if c = '\x08' then "\\b"
  else if c = '\t' then "\\t"
  else if c = '\n' then "\\n"
  else if c = '\x0C' then "\\f"
  else if c = '\x0D' then "\\r"
  else if c.toNat < 0x20 then "\\u" ++ toHex4 c.toNat
  else if c.toNat ≤ 0x7E then String.mk [c]
  else if c.toNat ≤ 0xFFFF then "\\u" ++ toHex4 c.toNat
  else
    "\\u" ++ toHex4 (0xD800 + (c.toNat - 0x10000) / 0x400)
      ++ "\\u" ++ toHex4 (0xDC00 + (c.toNat - 0x10000) % 0x400)

def pyJsonQuote (s : String) : String :=
  "\"" ++ String.join (s.data.map pyJsonEscapeChar) ++ "\""

/-- json.dumps of the payload dictionary with keys model and prompt, in that
insertion order, with the default separators. -/
def json_dumps_payload (model prompt : String) : String :=
  "\x7b" ++ pyJsonQuote "model" ++ ": " ++ pyJsonQuote model ++ ", "
    ++ pyJsonQuote "prompt" ++ ": " ++ pyJsonQuote prompt ++ "\x7d"

/-! The argument resolver: argparse.ArgumentParser.parse_known_args for the
parser of main. Option strings are --url (one value), --model (nargs 1, the
stored value is the single list element the program reads), and the aliases
--help, --hel, --he, --h (store_true); one catch-all positional with nargs
star collects non-option arguments. -/

/-- str.startswith, over the character lists so that it evaluates by kernel
reduction. -/
def pyStartsWith (s p : String) : Bool :=
  p.data.isPrefixOf s.data

/-- str.endswith, over the character lists so that it evaluates by kernel
reduction. -/
def pyEndsWith (s p : String) : Bool :=
  p.data.isSuffixOf s.data

/-- Membership of a character in a string, as the in operator of Python. -/
def pyContainsChar (s : String) (c : Char) : Bool :=
  s.data.contains c

inductive OptAction where
  | url
  | model
  | help
deriving DecidableEq, Repr

/-- Classification of one token by the _parse_optional method: a positional,
a match of a declared option with its option string and optional explicit
argument from the form with an equals sign, an unknown option-like token that
parse_known_args routes to the extras, or an ambiguous abbreviation. -/
inductive TokKind where
  | positional
  | known (action : OptAction) (optionString : String) (explicitArg : Option String)
  | unknown
  | ambiguous (opts : List String)
deriving DecidableEq, Repr

def optionStrings : List (String × OptAction) :=
  [("--url", OptAction.url), ("--model", OptAction.model),
   ("--help", OptAction.help), ("--hel", OptAction.help),
   ("--he", OptAction.help), ("--h", OptAction.help)]

def lookupExact (t : String) : Option OptAction :=
  (optionStrings.find? (fun p => p.1 = t)).map (fun p => p.2)

def prefixMatches (p : String) : List (String × OptAction) :=
  optionStrings.filter (fun q => pyStartsWith q.1 p)

def splitFirstEqAux : List Char → Option (List Char × List Char)
  | [] => none
  | '=' :: rest => some ([], rest)
  | c :: rest => (splitFirstEqAux rest).map (fun p => (c :: p.1, p.2))

/-- Split a token at its first equals sign, as str.split with maxsplit one. -/
def splitFirstEq (t : String) : Option (String × String) :=
  (splitFirstEqAux t.data).map (fun p => (String.mk p.1, String.mk p.2))

/-- The _negative_number_matcher of argparse: a dash followed by digits, or a
dash, optional digits, a dot and digits. The parser declares no option
looking like a negative number, so such tokens are positionals. -/
def isNegNumberTok (t : String) : Bool :=
  match t.data with
  | '-' :: cs =>
    (!cs.isEmpty && cs.all Char.isDigit)
    || (match cs.span Char.isDigit with
        | (_, '.' :: frac) => !frac.isEmpty && frac.all Char.isDigit
        | _ => false)
  | _ => false

/-- The _get_option_tuples step of _parse_optional: for a double-dash token,
unambiguous prefix abbreviation against the declared option strings, with the
explicit argument split off at an equals sign; the parser declares no
single-dash option, so single-dash tokens produce no tuple. When no tuple
matches, a negative-number lookalike or a token containing a space is a
positional, anything else an unknown option. -/
def parseOptionalTuples (t : String) (eqSplit : Option (String × String)) : TokKind :=
  let tuples :=
    if pyStartsWith t "--" then
      match eqSplit with
      | some (pre, arg) => (prefixMatches pre).map (fun q => (q.2, q.1, some arg))
      | none => (prefixMatches t).map (fun q => (q.2, q.1, (none : Option String)))
    else []
  match tuples with
  | [(a, os, e)] => TokKind.known a os e
  | [] =>
    if isNegNumberTok t then TokKind.positional
    else if pyContainsChar t ' ' then TokKind.positional
    else TokKind.unknown
  | more => TokKind.ambiguous (more.map (fun x => x.2.1))

/-- The _parse_optional method of argparse for this parser, in the order of
the CPython source: empty tokens and tokens without a leading dash are
positionals, then exact option strings, then the single-character token (the
bare dash), then the exact match of the part before an equals sign, then
prefix abbreviation and the fallbacks. -/
def parseOptional (t : String) : TokKind :=
  if t = "" then TokKind.positional
  else if !pyStartsWith t "-" then TokKind.positional
  else
    match lookupExact t with
    | some a => TokKind.known a t none
    | none =>
      if t.length = 1 then TokKind.positional
      else
        match splitFirstEq t with
        | some (pre, arg) =>
          (match lookupExact pre with
           | some a => TokKind.known a pre (some arg)
           | none => parseOptionalTuples t (some (pre, arg)))
        | none => parseOptionalTuples t none

/-- Parser state while consuming the argument strings: the option values with
their defaults, the catch-all positional (none while not yet matched, as the
positionals list of argparse before its single match), and the extras that
parse_known_args returns as unhandled. -/
structure ArgState where
  url : String
  model : Option String
  helpFlag : Bool
  nonOpt : Option (List String)
  extras : List String
deriving DecidableEq, Repr

def initialArgState : ArgState :=
  { url := "http://localhost:11434", model := none, helpFlag := false,
    nonOpt := none, extras := [] }

/-- The result of parse_known_args: the namespace fields and the unhandled
extras. -/
structure ParsedArgs where
  url : String
  model : Option String
  helpFlag : Bool
  nonOpt : List String
  extras : List String
deriving DecidableEq, Repr

/-- Outcome of parse_known_args: either a parser error, on which argparse
prints the usage line and the message to stderr and exits with code 2, or the
parsed result. -/
inductive ArgparseOutcome where
  | error (msg : String)
  | ok (r : ParsedArgs)
deriving DecidableEq, Repr

/-- Consumption of a maximal run of positional-pattern tokens, as the
consume_positionals calls of _parse_known_args: the first nonempty run is
matched by the catch-all positional, whose _get_values removes the first
double-dash token from the values; once the positional is consumed, later
runs are extended onto the extras verbatim. -/
def flushRun (st : ArgState) (run : List String) : ArgState :=
  if run.isEmpty then st
  else
    match st.nonOpt with
    | none => { st with nonOpt := some (run.erase "--") }
    | some _ => { st with extras := st.extras ++ run }

def setOptValue (a : OptAction) (v : String) (st : ArgState) : ArgState :=
  match a with
  | OptAction.url => { st with url := v }
  | OptAction.model => { st with model := some v }
  | OptAction.help => st

def optionDisplayName (a : OptAction) : String :=
  match a with
  | OptAction.url => "--url"
  | OptAction.model => "--model"
  | OptAction.help => "--help/--hel/--he/--h"

def ambiguousMsg (t : String) (ms : List String) : String :=
  "ambiguous option: " ++ t ++ " could match " ++ String.intercalate ", " ms

/-- The match_argument error: the wording differs between nargs None, used by
--url, and an integer nargs, used by --model. -/
def expectedOneArgMsg (a : OptAction) : String :=
  match a with
  | OptAction.model => "argument --model: expected 1 argument"
  | _ => "argument " ++ optionDisplayName a ++ ": expected one argument"

def finalizeArgs (st : ArgState) : ArgparseOutcome :=
  ArgparseOutcome.ok
    { url := st.url, model := st.model, helpFlag := st.helpFlag,
      nonOpt := st.nonOpt.getD [], extras := st.extras }

/-- The main loop of _parse_known_args over the argument strings. The seen
flag records that the double-dash separator was passed, after which every
token has the positional pattern; run accumulates the current maximal run of
positional-pattern tokens. An option that expects one value matches the
regular expression pattern dash-star A dash-star against the following
pattern characters; for an optional action argparse strips the dashes from
that pattern, so the value must be exactly the next token, that token must
have the positional pattern, and the double-dash separator or an option-like
token in value position is the parser error expected argument. The fuel
decreases by one per step
while every step consumes at least one token, so the fuel passed by
parseKnownArgs, the token count plus one, makes the zero-fuel case
unreachable. -/
def parseLoop : Nat → List String → Bool → List String → ArgState → ArgparseOutcome
  | 0, _, _, _, _ => ArgparseOutcome.error "internal error: fuel exhausted"
  | _ + 1, [], _, run, st => finalizeArgs (flushRun st run)
  | fuel + 1, t :: ts, seen, run, st =>
    if seen then parseLoop fuel ts true (run ++ [t]) st
    else if t = "--" then parseLoop fuel ts true (run ++ [t]) st
    else
      match parseOptional t with
      | TokKind.positional => parseLoop fuel ts false (run ++ [t]) st
      | TokKind.ambiguous ms => ArgparseOutcome.error (ambiguousMsg t ms)
      | TokKind.unknown =>
        let st2 := flushRun st run
        parseLoop fuel ts false [] { st2 with extras := st2.extras ++ [t] }
      | TokKind.known a _ ex =>
        let st2 := flushRun st run
        match a, ex with
        | OptAction.help, some v =>
          ArgparseOutcome.error
            ("argument " ++ optionDisplayName OptAction.help
              ++ ": ignored explicit argument \x27" ++ v ++ "\x27")
        | OptAction.help, none => parseLoop fuel ts false [] { st2 with helpFlag := true }
        | a2, some v => parseLoop fuel ts false [] (setOptValue a2 v st2)
        | a2, none =>
          match ts with
          | [] => ArgparseOutcome.error (expectedOneArgMsg a2)
          | u :: ts2 =>
            if u = "--" then ArgparseOutcome.error (expectedOneArgMsg a2)
            else
              match parseOptional u with
              | TokKind.positional => parseLoop fuel ts2 false [] (setOptValue a2 u st2)
              | _ => ArgparseOutcome.error (expectedOneArgMsg a2)

/-- Pattern building classifies every token before the double-dash separator
up front, so an ambiguous abbreviation anywhere is reported before any
consumption error. -/
def firstAmbiguous : List String → Option (String × List String)
  | [] => none
  | t :: ts =>
    if t = "--" then none
    else
      match parseOptional t with
      | TokKind.ambiguous ms => some (t, ms)
      | _ => firstAmbiguous ts

def parseKnownArgs (argv : List String) : ArgparseOutcome :=
  match firstAmbiguous argv with
  | some (t, ms) => ArgparseOutcome.error (ambiguousMsg t ms)
  | none => parseLoop (argv.length + 1) argv false [] initialArgState

/-! The program itself. -/

/-- The single outbound request: target URL, body, and the stream flag of
requests.post. -/
structure HttpRequest where
  url : String
  body : String
  stream : Bool
deriving DecidableEq, Repr

/-- The HTTP response the server would give: the status code, the full body
text as read by response.text, and the body lines as yielded by
response.iter_lines and decoded as UTF-8. -/
structure Response where
  status_code : Nat
  text : String
  lines : List String
deriving DecidableEq, Repr

/-- Observable outcome of one run: the exit code (none models abnormal
termination by an uncaught exception), the ordered stdout write-and-flush
events, the stderr text, and the requests issued. -/
structure Outcome where
  exitCode : Option Nat
  stdout : List String
  stderr : String
  requests : List HttpRequest
deriving DecidableEq, Repr

/-- The usage text printed for --help: the triple-quoted string of the source
followed by the newline that print appends. -/
def helpText : String :=
  "\nUsage: spit [OPTION...]\n\nPasses standard input to an ollama instance and prints the response.\n\nOptions:\n      --url      Specifies the ollama server\x27s URL.\n      --model    Specifies the model to use.\n\nInformative output:\n\n      --help     Show this help text.\n\n"

/-- Stderr text of an argparse error: the usage line declared for the parser
and the error message. -/
def usageErrorText (msg : String) : String :=
  "usage: spit --help\nspit: error: " ++ msg ++ "\n"

def unrecognizedOptionMsg (arg : String) : String :=
  "spit: Unrecognized option \x27" ++ arg ++ "\x27.\nTry \x27spit --help\x27 for more information.\n"

def missingModelMsg : String :=
  "spit: missing --model option\n"

def tooManyArgumentsMsg : String :=
  "spit: too many arguments\nTry \x27spit --help\x27 for more information.\n"

def statusMsg (code : Nat) : String :=
  "Status: " ++ toString code ++ "\n"

def bodyMsg (text : String) : String :=
  "Body: " ++ text ++ "\n"

def sanitizeUrl (url : String) : String :=
  if pyEndsWith url "/" then url else url ++ "/"

def generateRequest (url model input : String) : HttpRequest :=
  { url := sanitizeUrl url ++ "api/generate",
    body := json_dumps_payload model input,
    stream := true }

/-- The stream loop over response.iter_lines: each line goes through
json_loads; a line that does not parse raises an uncaught ValueError, a line
whose value is not an object raises an uncaught AttributeError on part.get;
otherwise the response field, defaulted to the empty string, is printed and
flushed. Returns the ordered fragments written before termination and whether
the loop completed normally. -/
def consumeStep : Option JsonValue → List String × Bool → List String × Bool
  | some (JsonValue.obj members), rest => (printedFragment members :: rest.1, rest.2)
  | some _, _ => ([], false)
  | none, _ => ([], false)

def consumeStream : List String → List String × Bool
  | [] => ([], true)
  | l :: ls => consumeStep (json_loads l) (consumeStream ls)

/-- The tail of main after the request is issued: report a status other than
200 on stderr, on a status of at least 400 also report the body text and exit
with code 1, otherwise consume the stream. -/
def issueAndConsume (req : HttpRequest) (resp : Response) : Outcome :=
  let statusLine := if resp.status_code ≠ 200 then statusMsg resp.status_code else ""
  if resp.status_code ≥ 400 then
    { exitCode := some 1, stdout := [], stderr := statusLine ++ bodyMsg resp.text,
      requests := [req] }
  else
    let res := consumeStream resp.lines
    { exitCode := if res.2 then some 0 else none, stdout := res.1, stderr := statusLine,
      requests := [req] }

/-- The body of main after parse_known_args succeeded: help wins over
everything, then the first option-like unhandled token is an error, then the
missing model, then excess positionals, and finally the single streamed POST. -/
def runParsed (r : ParsedArgs) (input : String) (resp : Response) : Outcome :=
  if r.helpFlag then
    { exitCode := some 0, stdout := [helpText], stderr := "", requests := [] }
  else
    match r.extras.find? (fun a => pyStartsWith a "-") with
    | some bad =>
      { exitCode := some 1, stdout := [], stderr := unrecognizedOptionMsg bad, requests := [] }
    | none =>
      match r.model with
      | none =>
        { exitCode := some 1, stdout := [], stderr := missingModelMsg, requests := [] }
      | some model =>
        if (r.nonOpt ++ r.extras).length > 0 then
          { exitCode := some 1, stdout := [], stderr := tooManyArgumentsMsg, requests := [] }
        else
          issueAndConsume (generateRequest r.url model input) resp

/-- The whole program: main of ollama-spit.py, as a function of the argument
strings after the program name, the full standard input, and the response the
server would give to the single request. -/
def spitMain (argv : List String) (input : String) (resp : Response) : Outcome :=
  match parseKnownArgs argv with
  | ArgparseOutcome.error msg =>
    { exitCode := some 2, stdout := [], stderr := usageErrorText msg, requests := [] }
  | ArgparseOutcome.ok r => runParsed r input resp

/-! Definitions supporting the statements of the claims. -/

/-- A decoded value that is an object. -/
def objLineOf : Option JsonValue → Bool
  | some (JsonValue.obj _) => true
  | _ => false

/-- A body line that json.loads decodes to an object; any other line makes
the stream loop raise. -/
def objLine (l : String) : Bool :=
  objLineOf (json_loads l)

/-- A response value that is a string or absent, the only cases the protocol
produces. -/
def strOrAbsent : Option JsonValue → Bool
  | some (JsonValue.str _) => true
  | none => true
  | _ => false

/-- A decoded value that is an object whose response field, when present, is
a string. -/
def goodObjLineOf : Option JsonValue → Bool
  | some (JsonValue.obj ms) => strOrAbsent (pyDictGet ms "response")
  | _ => false

/-- A body line that decodes to an object whose response field, when present,
is a string. -/
def goodObjLine (l : String) : Bool :=
  goodObjLineOf (json_loads l)

/-- The fragment printed for a decoded value that is an object, and the empty
string otherwise. -/
def lineOutputOf : Option JsonValue → String
  | some (JsonValue.obj ms) => printedFragment ms
  | _ => ""

/-- The fragment the stream loop prints for one line that decodes to an
object, and the empty string for any other line. -/
def lineOutput (l : String) : String :=
  lineOutputOf (json_loads l)

/-- The string content of a response value: the string itself, and the empty
string when the field is absent or not a string. -/
def fragValue : Option JsonValue → String
  | some (JsonValue.str s) => s
  | _ => ""

/-- The response field of a decoded object value as a string. -/
def responseFieldStrOf : Option JsonValue → String
  | some (JsonValue.obj ms) => fragValue (pyDictGet ms "response")
  | _ => ""

/-- The response field of a line as a string: the value when the line decodes
to an object carrying a string under the key response, and the empty string
otherwise. -/
def responseFieldStr (l : String) : String :=
  responseFieldStrOf (json_loads l)

/-- Whether the resolver matches a token to a declared option, exactly or by
unambiguous abbreviation. -/
def isKnownTok (t : String) : Bool :=
  match parseOptional t with
  | TokKind.known _ _ _ => true
  | _ => false

/-- Every element before the first double-dash separator is a token the
resolver matches to no declared option. The extras returned by
parse_known_args satisfy this invariant. -/
def goodTailB : List String → Bool
  | [] => true
  | t :: ts => if t = "--" then true else !isKnownTok t && goodTailB ts

/-! Helper lemmas. -/

theorem spitMain_ok (argv : List String) (input : String) (resp : Response)
    (r : ParsedArgs) (hp : parseKnownArgs argv = ArgparseOutcome.ok r) :
    spitMain argv input resp = runParsed r input resp := by
  unfold spitMain
  rw [hp]

theorem runParsed_request (r : ParsedArgs) (input : String) (resp : Response) (model : String)
    (hh : r.helpFlag = false)
    (hu : r.extras.find? (fun a => pyStartsWith a "-") = none)
    (hm : r.model = some model)
    (hn : r.nonOpt ++ r.extras = []) :
    runParsed r input resp = issueAndConsume (generateRequest r.url model input) resp := by
  unfold runParsed
  rw [hh, hu, hm, hn]
  simp

theorem issueAndConsume_requests (req : HttpRequest) (resp : Response) :
    (issueAndConsume req resp).requests = [req] := by
  unfold issueAndConsume
  split <;> split <;> rfl


theorem consumeStep_obj (o : Option JsonValue) (rest : List String × Bool)
    (h : objLineOf o = true) :
    consumeStep o rest = (lineOutputOf o :: rest.1, rest.2) := by
  rcases o with _ | v
  · simp [objLineOf] at h
  · rcases v with _ | b | lex | s | items | ms
    · simp [objLineOf] at h
    · simp [objLineOf] at h
    · simp [objLineOf] at h
    · simp [objLineOf] at h
    · simp [objLineOf] at h
    · rfl

theorem consumeStream_allObj (ls : List String) (h : ls.all objLine = true) :
    consumeStream ls = (ls.map lineOutput, true) := by
  induction ls with
  | nil => rfl
  | cons l ls ih =>
    rw [List.all_cons, Bool.and_eq_true] at h
    rw [consumeStream, consumeStep_obj (json_loads l) (consumeStream ls) h.1, ih h.2,
      List.map_cons]
    rfl

theorem consumeStream_badLine (good : List String) (bad : String) (rest : List String)
    (hg : good.all objLine = true) (hb : json_loads bad = none) :
    consumeStream (good ++ bad :: rest) = (good.map lineOutput, false) := by
  induction good with
  | nil =>
    rw [List.nil_append, consumeStream, hb]
    rfl
  | cons l ls ih =>
    rw [List.all_cons, Bool.and_eq_true] at hg
    rw [List.cons_append, consumeStream,
      consumeStep_obj (json_loads l) _ hg.1, ih hg.2, List.map_cons]
    rfl

theorem lineOutputOf_eq_responseFieldStrOf (o : Option JsonValue)
    (h : goodObjLineOf o = true) : lineOutputOf o = responseFieldStrOf o := by
  rcases o with _ | v
  · rfl
  · rcases v with _ | b | lex | s | items | ms
    · rfl
    · rfl
    · rfl
    · rfl
    · rfl
    · rw [goodObjLineOf] at h
      rw [lineOutputOf, responseFieldStrOf]
      unfold printedFragment
      rcases hg : pyDictGet ms "response" with _ | g
      · rfl
      · rw [hg] at h
        rcases g with _ | b2 | lex2 | s2 | items2 | ms2
        · simp [strOrAbsent] at h
        · simp [strOrAbsent] at h
        · simp [strOrAbsent] at h
        · rfl
        · simp [strOrAbsent] at h
        · simp [strOrAbsent] at h

theorem lineOutput_eq_responseFieldStr (l : String) (h : goodObjLine l = true) :
    lineOutput l = responseFieldStr l := by
  rw [goodObjLine] at h
  rw [lineOutput, responseFieldStr, lineOutputOf_eq_responseFieldStrOf (json_loads l) h]

theorem goodObjLine_objLine (l : String) (h : goodObjLine l = true) : objLine l = true := by
  rw [goodObjLine] at h
  rw [objLine]
  rcases hl : json_loads l with _ | v
  · rw [hl] at h
    simp [goodObjLineOf] at h
  · rw [hl] at h
    rcases v with _ | b | lex | s | items | ms <;> simp_all [goodObjLineOf, objLineOf]

theorem listMapCongr (l : List String) (f g : String → String)
    (h : ∀ a, a ∈ l → f a = g a) : l.map f = l.map g := by
  induction l with
  | nil => rfl
  | cons x xs ih =>
    rw [List.map_cons, List.map_cons, h x (by simp), ih (fun a ha => h a (by simp [ha]))]

/-! The claims. -/

/-- C2: for every model name and standard-input contents, a run whose
argument resolution succeeds with no help flag, no option-like leftover
token, a model value and no remaining positional argument issues exactly one
streamed POST whose target is the sanitized url concatenated with
api/generate and whose body is the json.dumps serialization of the object
with fields model and prompt, the prompt being the whole standard input read
to end of stream. -/
theorem c2_single_streamed_post (argv : List String) (input : String) (resp : Response)
    (r : ParsedArgs) (model : String)
    (hp : parseKnownArgs argv = ArgparseOutcome.ok r)
    (hh : r.helpFlag = false)
    (hu : r.extras.find? (fun a => pyStartsWith a "-") = none)
    (hm : r.model = some model)
    (hn : r.nonOpt ++ r.extras = []) :
    (spitMain argv input resp).requests =
      [{ url := sanitizeUrl r.url ++ "api/generate",
         body := json_dumps_payload model input,
         stream := true }] := by
  rw [spitMain_ok argv input resp r hp,
    runParsed_request r input resp model hh hu hm hn,
    issueAndConsume_requests]
  rfl

/-- C2 witness: with the model foo and the standard input hello, the single
request goes to the default url with the expected serialized body. -/
theorem c2_witness :
    (spitMain ["--model", "foo"] "hello"
        { status_code := 200, text := "", lines := [] }).requests =
      [{ url := "http://localhost:11434/api/generate",
         body := "\x7b\"model\": \"foo\", \"prompt\": \"hello\"\x7d",
         stream := true }] := by
  have h := c2_single_streamed_post ["--model", "foo"] "hello"
    { status_code := 200, text := "", lines := [] }
    { url := "http://localhost:11434", model := some "foo", helpFlag := false,
      nonOpt := [], extras := [] } "foo" (by decide) rfl rfl rfl rfl
  exact h.trans (by decide)

/-- C4 counterexample: the argument list with --url immediately followed by
--help contains the token --help, yet argparse demands a value for --url,
fails, and the program exits with code 2, prints no usage text to standard
output and performs no network activity, against the claimed exit code 0 with
the usage text printed. -/
theorem c4_counterexample :
    (spitMain ["--url", "--help"] "" { status_code := 200, text := "", lines := [] }).exitCode
        = some 2
    ∧ (spitMain ["--url", "--help"] "" { status_code := 200, text := "", lines := [] }).stdout
        = []
    ∧ (spitMain ["--url", "--help"] "" { status_code := 200, text := "", lines := [] }).requests
        = [] := by
  decide

/-- C4 as amended: whenever argument resolution succeeds with the help flag
set, which holds for a recognized help spelling in any position except the
value position of --url or --model and except after the double-dash
separator, the program prints the fixed usage text to standard output, exits
with code 0, performs no network activity and ignores all other arguments and
options. -/
theorem c4_help_prints_usage (argv : List String) (input : String) (resp : Response)
    (r : ParsedArgs)
    (hp : parseKnownArgs argv = ArgparseOutcome.ok r)
    (hh : r.helpFlag = true) :
    spitMain argv input resp =
      { exitCode := some 0, stdout := [helpText], stderr := "", requests := [] } := by
  rw [spitMain_ok argv input resp r hp]
  unfold runParsed
  rw [hh]
  simp

/-- C4 witness: help amid other options and arguments, with a failing server
response standing by, still prints the usage text and exits 0 with no
request. -/
theorem c4_witness :
    spitMain ["--model", "x", "--help", "extra"] "ignored"
        { status_code := 500, text := "boom", lines := [] } =
      { exitCode := some 0, stdout := [helpText], stderr := "", requests := [] } := by
  exact c4_help_prints_usage ["--model", "x", "--help", "extra"] "ignored"
    { status_code := 500, text := "boom", lines := [] }
    { url := "http://localhost:11434", model := some "x", helpFlag := true,
      nonOpt := ["extra"], extras := [] } (by decide) rfl

/-- C6: the sanitizer appends a trailing slash exactly when the url does not
already end with one, and the urls http h colon 1 with and without the
trailing slash produce the identical outbound request target. -/
theorem c6_url_normalization :
    (∀ u : String,
      (pyEndsWith u "/" = true → sanitizeUrl u = u)
      ∧ (pyEndsWith u "/" = false → sanitizeUrl u = u ++ "/"))
    ∧ (spitMain ["--url", "http://h:1/", "--model", "m"] ""
         { status_code := 200, text := "", lines := [] }).requests.map HttpRequest.url
        = ["http://h:1/api/generate"]
    ∧ (spitMain ["--url", "http://h:1", "--model", "m"] ""
         { status_code := 200, text := "", lines := [] }).requests.map HttpRequest.url
        = ["http://h:1/api/generate"] := by
  refine ⟨fun u => ⟨fun h => ?_, fun h => ?_⟩, by decide, by decide⟩
  · unfold sanitizeUrl
    rw [h]
    simp
  · unfold sanitizeUrl
    rw [h]
    simp

/-- C6 witness: the sanitizer at a url with and one without a trailing
slash. -/
theorem c6_witness :
    sanitizeUrl "http://h:1/" = "http://h:1/"
    ∧ sanitizeUrl "http://h:1" = "http://h:1" ++ "/" :=
  ⟨(c6_url_normalization.1 "http://h:1/").1 (by decide),
   (c6_url_normalization.1 "http://h:1").2 (by decide)⟩

/-- C7 counterexample: the argument list consisting of the bare dash contains
a token that begins with a dash and is matched as no option, yet argparse
classifies it as a positional, so the program reports the missing model
instead of an unrecognized option. -/
theorem c7_counterexample :
    spitMain ["-"] "" { status_code := 200, text := "", lines := [] } =
      { exitCode := some 1, stdout := [], stderr := missingModelMsg, requests := [] }
    ∧ missingModelMsg ≠ unrecognizedOptionMsg "-" := by
  decide

/-- C7 as amended: for every run whose argument resolution succeeds with no
help flag and whose leftover tokens include one starting with a dash, the
program reports the first such token in an unrecognized option message
followed by the try help hint on standard error, exits with code 1 and makes
no network call; tokens beginning with a dash that argparse classifies as
positionals, namely the bare dash, negative-number lookalikes and tokens
containing a space, do not take this path. -/
theorem c7_unrecognized_option (argv : List String) (input : String) (resp : Response)
    (r : ParsedArgs) (bad : String)
    (hp : parseKnownArgs argv = ArgparseOutcome.ok r)
    (hh : r.helpFlag = false)
    (hu : r.extras.find? (fun a => pyStartsWith a "-") = some bad) :
    spitMain argv input resp =
      { exitCode := some 1, stdout := [], stderr := unrecognizedOptionMsg bad,
        requests := [] } := by
  rw [spitMain_ok argv input resp r hp]
  unfold runParsed
  rw [hh, hu]
  simp

/-- C7 witness: an unknown double-dash flag is reported as an unrecognized
option with exit code 1 and no request. -/
theorem c7_witness :
    spitMain ["--foo"] "" { status_code := 200, text := "", lines := [] } =
      { exitCode := some 1, stdout := [], stderr := unrecognizedOptionMsg "--foo",
        requests := [] } := by
  exact c7_unrecognized_option ["--foo"] "" { status_code := 200, text := "", lines := [] }
    { url := "http://localhost:11434", model := none, helpFlag := false,
      nonOpt := [], extras := ["--foo"] } "--foo" (by decide) rfl rfl

/-- C8: for every run whose argument resolution succeeds with no help flag,
no option-like leftover token and no model value, the program writes the
missing model message to standard error, exits with code 1 and makes no
network call. -/
theorem c8_missing_model (argv : List String) (input : String) (resp : Response)
    (r : ParsedArgs)
    (hp : parseKnownArgs argv = ArgparseOutcome.ok r)
    (hh : r.helpFlag = false)
    (hu : r.extras.find? (fun a => pyStartsWith a "-") = none)
    (hm : r.model = none) :
    spitMain argv input resp =
      { exitCode := some 1, stdout := [], stderr := missingModelMsg, requests := [] } := by
  rw [spitMain_ok argv input resp r hp]
  unfold runParsed
  rw [hh, hu, hm]
  simp

/-- C8 witness: the empty argument list omits the model and is rejected with
the missing model message. -/
theorem c8_witness :
    spitMain [] "" { status_code := 200, text := "", lines := [] } =
      { exitCode := some 1, stdout := [], stderr := missingModelMsg, requests := [] } := by
  exact c8_missing_model [] "" { status_code := 200, text := "", lines := [] }
    { url := "http://localhost:11434", model := none, helpFlag := false,
      nonOpt := [], extras := [] } (by decide) rfl rfl rfl

/-- C9: for every run whose argument resolution succeeds with no help flag,
no option-like leftover token, a model value and at least one positional
argument remaining, the program writes the too many arguments message with
the try help hint to standard error, exits with code 1 and performs no
network activity. -/
theorem c9_too_many_arguments (argv : List String) (input : String) (resp : Response)
    (r : ParsedArgs) (model : String)
    (hp : parseKnownArgs argv = ArgparseOutcome.ok r)
    (hh : r.helpFlag = false)
    (hu : r.extras.find? (fun a => pyStartsWith a "-") = none)
    (hm : r.model = some model)
    (hn : r.nonOpt ++ r.extras ≠ []) :
    spitMain argv input resp =
      { exitCode := some 1, stdout := [], stderr := tooManyArgumentsMsg, requests := [] } := by
  rw [spitMain_ok argv input resp r hp]
  unfold runParsed
  rw [hh, hu, hm]
  have hlen := List.length_pos.mpr hn
  simp [hlen]
  intro h1 h2
  exact absurd (by simp [h1, h2] : r.nonOpt ++ r.extras = []) hn

/-- C9 witness: a bare positional next to a model is rejected as too many
arguments. -/
theorem c9_witness :
    spitMain ["--model", "m", "x"] "" { status_code := 200, text := "", lines := [] } =
      { exitCode := some 1, stdout := [], stderr := tooManyArgumentsMsg, requests := [] } := by
  exact c9_too_many_arguments ["--model", "m", "x"] ""
    { status_code := 200, text := "", lines := [] }
    { url := "http://localhost:11434", model := some "m", helpFlag := false,
      nonOpt := ["x"], extras := [] } "m" (by decide) rfl rfl rfl (by decide)

/-- C1: for every run reaching the request whose response has status 200 and
whose body lines each decode to a JSON object whose response field, when
present, is a string, the stdout events are exactly one flushed fragment per
line, in arrival order, carrying the response field value with the empty
string for an absent field, and the run exits normally with code 0; the
concatenation of the events is therefore the concatenation of the response
values. The ordered event list renders the requirement that each fragment is
written and flushed before the next line is read. -/
theorem c1_stream_concatenation (argv : List String) (input : String) (resp : Response)
    (r : ParsedArgs) (model : String)
    (hp : parseKnownArgs argv = ArgparseOutcome.ok r)
    (hh : r.helpFlag = false)
    (hu : r.extras.find? (fun a => pyStartsWith a "-") = none)
    (hm : r.model = some model)
    (hn : r.nonOpt ++ r.extras = [])
    (h200 : resp.status_code = 200)
    (hlines : resp.lines.all goodObjLine = true) :
    (spitMain argv input resp).stdout = resp.lines.map responseFieldStr
    ∧ (spitMain argv input resp).exitCode = some 0
    ∧ String.join ((spitMain argv input resp).stdout)
        = String.join (resp.lines.map responseFieldStr) := by
  have hobj : resp.lines.all objLine = true := by
    rw [List.all_eq_true] at hlines ⊢
    intro x hx
    exact goodObjLine_objLine x (hlines x hx)
  have hmap : resp.lines.map lineOutput = resp.lines.map responseFieldStr :=
    listMapCongr resp.lines lineOutput responseFieldStr
      (fun a ha => lineOutput_eq_responseFieldStr a (List.all_eq_true.mp hlines a ha))
  have hmain : spitMain argv input resp
      = issueAndConsume (generateRequest r.url model input) resp := by
    rw [spitMain_ok argv input resp r hp, runParsed_request r input resp model hh hu hm hn]
  rw [hmain]
  unfold issueAndConsume
  rw [h200]
  rw [consumeStream_allObj resp.lines hobj]
  simp [hmap]

/-- C1 witness: the two fragments Hel and lo arrive as two flushed events
whose concatenation is Hello, with a normal exit. -/
theorem c1_witness :
    (spitMain ["--model", "m"] ""
        { status_code := 200, text := "",
          lines := ["\x7b\"response\":\"Hel\"\x7d", "\x7b\"response\":\"lo\"\x7d"] }).stdout
      = ["Hel", "lo"]
    ∧ String.join ((spitMain ["--model", "m"] ""
        { status_code := 200, text := "",
          lines := ["\x7b\"response\":\"Hel\"\x7d", "\x7b\"response\":\"lo\"\x7d"] }).stdout)
      = "Hello"
    ∧ (spitMain ["--model", "m"] ""
        { status_code := 200, text := "",
          lines := ["\x7b\"response\":\"Hel\"\x7d", "\x7b\"response\":\"lo\"\x7d"] }).exitCode
      = some 0 := by
  have h := c1_stream_concatenation ["--model", "m"] ""
    { status_code := 200, text := "",
      lines := ["\x7b\"response\":\"Hel\"\x7d", "\x7b\"response\":\"lo\"\x7d"] }
    { url := "http://localhost:11434", model := some "m", helpFlag := false,
      nonOpt := [], extras := [] } "m" (by decide) rfl rfl rfl rfl rfl (by decide)
  have h2 : List.map responseFieldStr
      ({ status_code := 200, text := "",
         lines := ["\x7b\"response\":\"Hel\"\x7d", "\x7b\"response\":\"lo\"\x7d"] } : Response).lines
      = ["Hel", "lo"] := by decide
  have h1 := h.1.trans h2
  exact ⟨h1, by rw [h1]; decide, h.2.1⟩

/-- C3: for every run reaching the request, a status of at least 400 yields
exit code 1 with the status and the full body text on standard error, an
empty standard output and no stream consumption; a status other than 200 but
below 400 only adds the status line to standard error and otherwise behaves
exactly as the same response with status 200; and every status other than 200
puts the status line at the start of standard error. -/
theorem c3_status_handling (argv : List String) (input : String) (resp : Response)
    (r : ParsedArgs) (model : String)
    (hp : parseKnownArgs argv = ArgparseOutcome.ok r)
    (hh : r.helpFlag = false)
    (hu : r.extras.find? (fun a => pyStartsWith a "-") = none)
    (hm : r.model = some model)
    (hn : r.nonOpt ++ r.extras = []) :
    (400 ≤ resp.status_code →
      spitMain argv input resp =
        { exitCode := some 1, stdout := [],
          stderr := statusMsg resp.status_code ++ bodyMsg resp.text,
          requests := [generateRequest r.url model input] })
    ∧ (resp.status_code ≠ 200 → resp.status_code < 400 →
      spitMain argv input resp =
        { spitMain argv input { resp with status_code := 200 } with
            stderr := statusMsg resp.status_code })
    ∧ (resp.status_code ≠ 200 →
      ∃ rest, (spitMain argv input resp).stderr = statusMsg resp.status_code ++ rest) := by
  have hmain : spitMain argv input resp
      = issueAndConsume (generateRequest r.url model input) resp := by
    rw [spitMain_ok argv input resp r hp, runParsed_request r input resp model hh hu hm hn]
  have hmain200 : spitMain argv input { resp with status_code := 200 }
      = issueAndConsume (generateRequest r.url model input) { resp with status_code := 200 } := by
    rw [spitMain_ok argv input { resp with status_code := 200 } r hp,
      runParsed_request r input { resp with status_code := 200 } model hh hu hm hn]
  refine ⟨fun h400 => ?_, fun hne hlt => ?_, fun hne => ?_⟩
  · have hne : resp.status_code ≠ 200 := by omega
    rw [hmain]
    unfold issueAndConsume
    rw [if_pos hne, if_pos h400]
  · have hnge : ¬ (resp.status_code ≥ 400) := by omega
    rw [hmain, hmain200]
    unfold issueAndConsume
    rw [if_pos hne, if_neg hnge]
    have h200 : ({ resp with status_code := 200 } : Response).status_code = 200 := rfl
    rw [h200]
    simp
  · by_cases h400 : 400 ≤ resp.status_code
    · refine ⟨bodyMsg resp.text, ?_⟩
      rw [hmain]
      unfold issueAndConsume
      rw [if_pos hne, if_pos h400]
    · have hnge : ¬ (resp.status_code ≥ 400) := h400
      refine ⟨"", ?_⟩
      rw [hmain]
      unfold issueAndConsume
      rw [if_pos hne, if_neg hnge]
      simp

/-- C3 witness: a 404 with body not found exits 1 reporting both on standard
error with no standard output, and a 302 behaves as a 200 up to the added
status line. -/
theorem c3_witness :
    spitMain ["--model", "m"] "" { status_code := 404, text := "not found", lines := [] } =
      { exitCode := some 1, stdout := [],
        stderr := "Status: 404\nBody: not found\n",
        requests := [generateRequest "http://localhost:11434" "m" ""] }
    ∧ spitMain ["--model", "m"] "" { status_code := 302, text := "", lines := ["\x7b\x7d"] } =
      { exitCode := some 0, stdout := [""], stderr := "Status: 302\n",
        requests := [generateRequest "http://localhost:11434" "m" ""] } := by
  have hc := c3_status_handling ["--model", "m"] ""
    { status_code := 404, text := "not found", lines := [] }
    { url := "http://localhost:11434", model := some "m", helpFlag := false,
      nonOpt := [], extras := [] } "m" (by decide) rfl rfl rfl rfl
  have hc2 := c3_status_handling ["--model", "m"] ""
    { status_code := 302, text := "", lines := ["\x7b\x7d"] }
    { url := "http://localhost:11434", model := some "m", helpFlag := false,
      nonOpt := [], extras := [] } "m" (by decide) rfl rfl rfl rfl
  constructor
  · exact (hc.1 (by decide)).trans (by decide)
  · exact (hc2.2.1 (by decide) (by decide)).trans (by decide)

/-- C5: while consuming a 200 streamed response, a body line that json.loads
rejects terminates the run abnormally through the uncaught decoding error,
with only the fragments of the earlier lines already written and flushed,
while a line that decodes to an object lacking the response key contributes
the empty fragment and consumption continues with the following lines. -/
theorem c5_stream_error_behaviour :
    (∀ (argv : List String) (input : String) (resp : Response) (r : ParsedArgs)
        (model : String) (good : List String) (bad : String) (rest : List String),
      parseKnownArgs argv = ArgparseOutcome.ok r →
      r.helpFlag = false →
      r.extras.find? (fun a => pyStartsWith a "-") = none →
      r.model = some model →
      r.nonOpt ++ r.extras = [] →
      resp.status_code = 200 →
      resp.lines = good ++ bad :: rest →
      good.all objLine = true →
      json_loads bad = none →
      spitMain argv input resp =
        { exitCode := none, stdout := good.map lineOutput, stderr := "",
          requests := [generateRequest r.url model input] })
    ∧ (∀ (l : String) (ls : List String) (ms : List (String × JsonValue)),
      json_loads l = some (JsonValue.obj ms) →
      pyDictGet ms "response" = none →
      consumeStream (l :: ls) = ("" :: (consumeStream ls).1, (consumeStream ls).2)) := by
  constructor
  · intro argv input resp r model good bad rest hp hh hu hm hn h200 hsplit hg hb
    have hmain : spitMain argv input resp
        = issueAndConsume (generateRequest r.url model input) resp := by
      rw [spitMain_ok argv input resp r hp, runParsed_request r input resp model hh hu hm hn]
    rw [hmain]
    unfold issueAndConsume
    rw [h200, hsplit, consumeStream_badLine good bad rest hg hb]
    simp
  · intro l ls ms hl hget
    rw [consumeStream, hl]
    rw [consumeStep]
    rw [printedFragment, hget]
    rfl

/-- C5 witness: a stream whose second line is not JSON aborts abnormally
after the first fragment, and a line that is an object without a response key
prints nothing for that line while the next line still prints. -/
theorem c5_witness :
    spitMain ["--model", "m"] ""
        { status_code := 200, text := "",
          lines := ["\x7b\"response\":\"a\"\x7d", "nope"] } =
      { exitCode := none, stdout := ["a"], stderr := "",
        requests := [generateRequest "http://localhost:11434" "m" ""] }
    ∧ consumeStream ["\x7b\"done\":true\x7d", "\x7b\"response\":\"x\"\x7d"] = (["", "x"], true) := by
  constructor
  · have h := c5_stream_error_behaviour.1 ["--model", "m"] ""
      { status_code := 200, text := "", lines := ["\x7b\"response\":\"a\"\x7d", "nope"] }
      { url := "http://localhost:11434", model := some "m", helpFlag := false,
        nonOpt := [], extras := [] } "m" ["\x7b\"response\":\"a\"\x7d"] "nope" []
      (by decide) rfl rfl rfl rfl rfl rfl (by decide) rfl
    exact h.trans (by decide)
  · have h2 := c5_stream_error_behaviour.2 "\x7b\"done\":true\x7d"
      ["\x7b\"response\":\"x\"\x7d"] [("done", JsonValue.bool true)] rfl rfl
    exact h2.trans (by decide)

theorem isKnownTok_of_positional (t : String) (h : parseOptional t = TokKind.positional) :
    isKnownTok t = false := by
  unfold isKnownTok
  rw [h]

theorem isKnownTok_of_unknown (t : String) (h : parseOptional t = TokKind.unknown) :
    isKnownTok t = false := by
  unfold isKnownTok
  rw [h]

theorem goodTailB_append_one (l : List String) (t : String)
    (hl : goodTailB l = true) (ht : isKnownTok t = false) :
    goodTailB (l ++ [t]) = true := by
  induction l with
  | nil =>
    by_cases h : t = "--"
    · simp [goodTailB, h]
    · simp [goodTailB, h, ht]
  | cons x xs ih =>
    by_cases hx : x = "--"
    · simp [goodTailB, hx]
    · rw [goodTailB] at hl
      rw [List.cons_append, goodTailB]
      rw [if_neg hx] at hl ⊢
      rw [Bool.and_eq_true] at hl ⊢
      exact ⟨hl.1, ih hl.2⟩

theorem goodTailB_append_mem (l m : List String)
    (hmem : "--" ∈ l) (hl : goodTailB l = true) :
    goodTailB (l ++ m) = true := by
  induction l with
  | nil => exact absurd hmem (by simp)
  | cons x xs ih =>
    by_cases hx : x = "--"
    · simp [goodTailB, hx]
    · rw [goodTailB] at hl
      rw [List.cons_append, goodTailB]
      rw [if_neg hx] at hl ⊢
      rw [Bool.and_eq_true] at hl ⊢
      have hmem2 : "--" ∈ xs := by
        rcases List.mem_cons.mp hmem with h1 | h1
        · exact absurd h1.symm hx
        · exact h1
      exact ⟨hl.1, ih hmem2 hl.2⟩

theorem goodTailB_append (l m : List String)
    (hl : goodTailB l = true) (hm : goodTailB m = true) :
    goodTailB (l ++ m) = true := by
  induction l with
  | nil => simpa using hm
  | cons x xs ih =>
    by_cases hx : x = "--"
    · simp [goodTailB, hx]
    · rw [goodTailB] at hl
      rw [List.cons_append, goodTailB]
      rw [if_neg hx] at hl ⊢
      rw [Bool.and_eq_true] at hl ⊢
      exact ⟨hl.1, ih hl.2⟩

theorem goodTailB_find (l : List String) (b : String)
    (hl : goodTailB l = true)
    (hf : l.find? (fun a => pyStartsWith a "-") = some b) :
    isKnownTok b = false := by
  induction l with
  | nil => exact absurd hf (by simp)
  | cons x xs ih =>
    by_cases hpx : pyStartsWith x "-" = true
    · simp only [List.find?, hpx] at hf
      have hxb : x = b := by injection hf
      by_cases hx : x = "--"
      · rw [← hxb, hx]
        decide
      · rw [goodTailB, if_neg hx, Bool.and_eq_true] at hl
        rw [← hxb]
        simpa using hl.1
    · have hpx2 : pyStartsWith x "-" = false := by simpa using hpx
      simp only [List.find?, hpx2] at hf
      by_cases hx : x = "--"
      · exact absurd (by rw [hx]; decide) hpx
      · rw [goodTailB, if_neg hx, Bool.and_eq_true] at hl
        exact ih hl.2 hf

theorem flushRun_extras (st : ArgState) (run : List String)
    (hst : goodTailB st.extras = true) (hrun : goodTailB run = true) :
    goodTailB (flushRun st run).extras = true := by
  unfold flushRun
  split
  · exact hst
  · split
    · exact hst
    · exact goodTailB_append st.extras run hst hrun

theorem setOptValue_extras (a : OptAction) (v : String) (st : ArgState) :
    (setOptValue a v st).extras = st.extras := by
  cases a <;> rfl

/-- Invariant of the argument-consumption loop: the extras it returns always
satisfy goodTailB, because a token enters the extras either as an unknown
option, as a positional-classified token or the double-dash separator of a
leftover run, or after that separator, which then precedes it in the list. -/
theorem parseLoop_extras (fuel : Nat) :
    ∀ (toks : List String) (seen : Bool) (run : List String) (st : ArgState) (r : ParsedArgs),
      (seen = true → "--" ∈ run) →
      goodTailB run = true →
      goodTailB st.extras = true →
      parseLoop fuel toks seen run st = ArgparseOutcome.ok r →
      goodTailB r.extras = true := by
  induction fuel with
  | zero =>
    intro toks seen run st r _ _ _ h
    rw [parseLoop] at h
    exact ArgparseOutcome.noConfusion h
  | succ fuel ih =>
    intro toks seen run st r hseen hrun hex h
    cases toks with
    | nil =>
      rw [parseLoop] at h
      unfold finalizeArgs at h
      injection h with h2
      rw [← h2]
      exact flushRun_extras st run hex hrun
    | cons t ts =>
      rw [parseLoop] at h
      by_cases hs : seen = true
      · rw [if_pos hs] at h
        exact ih ts true (run ++ [t]) st r
          (fun _ => List.mem_append_left [t] (hseen hs))
          (goodTailB_append_mem run [t] (hseen hs) hrun) hex h
      · rw [if_neg hs] at h
        by_cases ht : t = "--"
        · rw [if_pos ht] at h
          exact ih ts true (run ++ [t]) st r
            (fun _ => by rw [ht]; exact List.mem_append_right run (by simp))
            (goodTailB_append_one run t hrun (by rw [ht]; decide)) hex h
        · rw [if_neg ht] at h
          rcases hpo : parseOptional t with _ | ⟨a, os, ex⟩ | _ | ms
          · rw [hpo] at h
            exact ih ts false (run ++ [t]) st r (fun hc => absurd hc (by simp))
              (goodTailB_append_one run t hrun (isKnownTok_of_positional t hpo)) hex h
          · rw [hpo] at h
            rcases a with _ | _ | _
            · rcases ex with _ | v
              · rcases ts with _ | ⟨u, ts2⟩
                · exact ArgparseOutcome.noConfusion h
                · simp only [] at h
                  by_cases hu : u = "--"
                  · rw [if_pos hu] at h
                    exact ArgparseOutcome.noConfusion h
                  · rw [if_neg hu] at h
                    rcases hpu : parseOptional u with _ | _ | _ | _
                    · rw [hpu] at h
                      refine ih ts2 false [] (setOptValue OptAction.url u (flushRun st run)) r
                        (fun hc => absurd hc (by simp)) rfl ?_ h
                      rw [setOptValue_extras]
                      exact flushRun_extras st run hex hrun
                    · rw [hpu] at h
                      exact ArgparseOutcome.noConfusion h
                    · rw [hpu] at h
                      exact ArgparseOutcome.noConfusion h
                    · rw [hpu] at h
                      exact ArgparseOutcome.noConfusion h
              · refine ih ts false [] (setOptValue OptAction.url v (flushRun st run)) r
                  (fun hc => absurd hc (by simp)) rfl ?_ h
                rw [setOptValue_extras]
                exact flushRun_extras st run hex hrun
            · rcases ex with _ | v
              · rcases ts with _ | ⟨u, ts2⟩
                · exact ArgparseOutcome.noConfusion h
                · simp only [] at h
                  by_cases hu : u = "--"
                  · rw [if_pos hu] at h
                    exact ArgparseOutcome.noConfusion h
                  · rw [if_neg hu] at h
                    rcases hpu : parseOptional u with _ | _ | _ | _
                    · rw [hpu] at h
                      refine ih ts2 false [] (setOptValue OptAction.model u (flushRun st run)) r
                        (fun hc => absurd hc (by simp)) rfl ?_ h
                      rw [setOptValue_extras]
                      exact flushRun_extras st run hex hrun
                    · rw [hpu] at h
                      exact ArgparseOutcome.noConfusion h
                    · rw [hpu] at h
                      exact ArgparseOutcome.noConfusion h
                    · rw [hpu] at h
                      exact ArgparseOutcome.noConfusion h
              · refine ih ts false [] (setOptValue OptAction.model v (flushRun st run)) r
                  (fun hc => absurd hc (by simp)) rfl ?_ h
                rw [setOptValue_extras]
                exact flushRun_extras st run hex hrun
            · rcases ex with _ | v
              · exact ih ts false [] { flushRun st run with helpFlag := true } r
                  (fun hc => absurd hc (by simp)) rfl (flushRun_extras st run hex hrun) h
              · exact ArgparseOutcome.noConfusion h
          · rw [hpo] at h
            refine ih ts false []
              { flushRun st run with extras := (flushRun st run).extras ++ [t] } r
              (fun hc => absurd hc (by simp)) rfl ?_ h
            exact goodTailB_append_one (flushRun st run).extras t
              (flushRun_extras st run hex hrun) (isKnownTok_of_unknown t hpo)
          · rw [hpo] at h
            exact ArgparseOutcome.noConfusion h

/-- C10: the resolver accepts every unambiguous proper prefix of a declared
option name as that option with its value, as listed exhaustively for --url
and --model, rather than rejecting it as unrecognized, and an abbreviated
invocation resolves to the same request as the full spelling; conversely, a
token reported by the unrecognized-option error is always one the resolver
matched to no declared option, exactly or by prefix. -/
theorem c10_prefix_abbreviation :
    (parseOptional "--u" = TokKind.known OptAction.url "--url" none
     ∧ parseOptional "--ur" = TokKind.known OptAction.url "--url" none
     ∧ parseOptional "--m" = TokKind.known OptAction.model "--model" none
     ∧ parseOptional "--mo" = TokKind.known OptAction.model "--model" none
     ∧ parseOptional "--mod" = TokKind.known OptAction.model "--model" none
     ∧ parseOptional "--mode" = TokKind.known OptAction.model "--model" none)
    ∧ parseKnownArgs ["--u", "http://h:9/", "--m", "foo"] =
        ArgparseOutcome.ok
          { url := "http://h:9/", model := some "foo", helpFlag := false,
            nonOpt := [], extras := [] }
    ∧ (spitMain ["--u", "http://h:9/", "--m", "foo"] "hi"
         { status_code := 200, text := "", lines := [] }).requests =
        [generateRequest "http://h:9/" "foo" "hi"]
    ∧ (∀ (argv : List String) (input : String) (resp : Response)
          (r : ParsedArgs) (bad : String),
        parseKnownArgs argv = ArgparseOutcome.ok r →
        r.helpFlag = false →
        r.extras.find? (fun a => pyStartsWith a "-") = some bad →
        spitMain argv input resp =
          { exitCode := some 1, stdout := [], stderr := unrecognizedOptionMsg bad,
            requests := [] }
        ∧ isKnownTok bad = false) := by
  refine ⟨by decide, by decide, by decide, ?_⟩
  intro argv input resp r bad hp hh hu
  constructor
  · rw [spitMain_ok argv input resp r hp]
    unfold runParsed
    rw [hh, hu]
    simp
  · have hex : goodTailB r.extras = true := by
      unfold parseKnownArgs at hp
      rcases hfa : firstAmbiguous argv with _ | p
      · rw [hfa] at hp
        exact parseLoop_extras (argv.length + 1) argv false [] initialArgState r
          (fun hc => absurd hc (by simp)) rfl rfl hp
      · rw [hfa] at hp
        exact ArgparseOutcome.noConfusion hp
    exact goodTailB_find r.extras bad hex hu

/-- C10 witness: abbreviation facts need no input, and the general clause at
the run where the leftover double-dash separator is the reported token, a
token the resolver matches to no option. -/
theorem c10_witness :
    spitMain ["a", "--url", "u", "--", "--model"] ""
        { status_code := 200, text := "", lines := [] } =
      { exitCode := some 1, stdout := [], stderr := unrecognizedOptionMsg "--",
        requests := [] }
    ∧ isKnownTok "--" = false := by
  exact c10_prefix_abbreviation.2.2.2 ["a", "--url", "u", "--", "--model"] ""
    { status_code := 200, text := "", lines := [] }
    { url := "u", model := none, helpFlag := false,
      nonOpt := ["a"], extras := ["--", "--model"] } "--" (by decide) rfl rfl
